import Mathlib

/-
Verification of the module-resolution and compilation core found in
src/modules/iotjs_module_process.c (ShadowNode). The C functions are
shallowly embedded as pure Lean functions. Engine-level collaborators
(the JerryScript parser, the snapshot executor, the function-call
primitive, libuv stat, the dynamic loader) are modelled as explicit
parameters or small environment records, and the observable side
effects of each C function (file reads, compilations, invocations,
handles left open, diagnostics printed) are returned as explicit
event lists so that ordering and absence of effects can be stated.
-/

/-- Model of a JerryScript value as seen by this file: undefined, a
boolean, a number, a string, an object reference (identified by a
numeric id) or a value carrying the error flag with its message. -/
inductive JVal where
  | undef
  | bool (b : Bool)
  | num (n : Int)
  | str (s : String)
  | obj (id : Nat)
  | err (msg : String)
deriving DecidableEq, Repr

/-- Model of jerry_value_has_error_flag. -/
def hasErrorFlag : JVal → Bool
  | .err _ => true
  | _ => false

/-- Model of the module record object handed to CompileModule: an
object reference together with its id and exports properties. -/
structure ModuleRecord where
  self : JVal
  id : String
  exports : JVal
deriving DecidableEq, Repr

/-- One entry of the compile-time js_modules table: a module name and
its script source (under ENABLE_SNAPSHOT the payload is instead a
snapshot ordinal; both forms are consumed only through the abstract
compile parameter below, so one field suffices). -/
structure JsModule where
  name : String
  code : String
deriving DecidableEq, Repr

/-- Model of the linear scan over js_modules in CompileModule: the
loop breaks at the first entry whose name compares equal by strcmp. -/
def findJsModule (mods : List JsModule) (name : String) : Option JsModule :=
  mods.find? (fun m => m.name == name)

/-- Modelled from the spec: iotjs_module_get, the native-static module
table lookup, whose definition lives outside this repository slice.
Per section 4.5 the native-static table is a list of names each with a
factory producing an exports object directly; lookup returns that
value for a registered name and the undefined value for an absent
name. A factory may also yield an error-flagged value, which the
table entry records. -/
def iotjs_module_get (tbl : List (String × JVal)) (name : String) : JVal :=
  match tbl.find? (fun p => p.1 == name) with
  | some p => p.2
  | none => JVal.undef

/-- Observable steps performed by CompileModule, in order. -/
inductive ResolveEv where
  | nativeLookup (name : String)
  | compileUnit (name : String)
  | invoke (fn : JVal) (args : List JVal)
deriving DecidableEq, Repr

/-- Result of CompileModule: the returned jerry value, the module
record after the call (its exports property may have been assigned),
and the ordered list of observable steps. -/
structure CMResult where
  ret : JVal
  module : ModuleRecord
  events : List ResolveEv
deriving DecidableEq, Repr

/-- Shallow embedding of CompileModule (the Module Resolver).
Parameters compile and call stand for the engine primitives that
produce a compiled unit from a built-in descriptor (WrapEval in the
source build, jerry_exec_snapshot_at in the ENABLE_SNAPSHOT build)
and invoke it (jerry_call_function). Control flow mirrors the C: scan
js_modules for the id, fetch the native-static value and return it at
once if it carries the error flag, then either compile and invoke the
built-in (passing the four-element argument array built in the C),
or assign a non-undefined native value into the exports property, or
produce the Unknown native module error. -/
def CompileModule (js_modules : List JsModule) (native_tbl : List (String × JVal))
    (compile : String → String → JVal) (call : JVal → List JVal → JVal)
    (jmodule : ModuleRecord) (jrequire : JVal) : CMResult :=
  if hasErrorFlag (iotjs_module_get native_tbl jmodule.id) then
    { ret := iotjs_module_get native_tbl jmodule.id, module := jmodule,
      events := [.nativeLookup jmodule.id] }
  else
    match findJsModule js_modules jmodule.id with
    | some m =>
      if hasErrorFlag (compile jmodule.id m.code) then
        { ret := compile jmodule.id m.code, module := jmodule,
          events := [.nativeLookup jmodule.id, .compileUnit jmodule.id] }
      else
        { ret := call (compile jmodule.id m.code)
            [jmodule.exports, jrequire, jmodule.self,
             iotjs_module_get native_tbl jmodule.id],
          module := jmodule,
          events := [.nativeLookup jmodule.id, .compileUnit jmodule.id,
            .invoke (compile jmodule.id m.code)
              [jmodule.exports, jrequire, jmodule.self,
               iotjs_module_get native_tbl jmodule.id]] }
    | none =>
      if iotjs_module_get native_tbl jmodule.id ≠ JVal.undef then
        { ret := JVal.undef,
          module := { jmodule with exports := iotjs_module_get native_tbl jmodule.id },
          events := [.nativeLookup jmodule.id] }
      else
        { ret := JVal.err "Unknown native module", module := jmodule,
          events := [.nativeLookup jmodule.id] }

/-- Argument lists of the invoke events of a trace, in order. -/
def invokeArgs : List ResolveEv → List (List JVal)
  | [] => []
  | ResolveEv.invoke _ a :: es => a :: invokeArgs es
  | ResolveEv.nativeLookup _ :: es => invokeArgs es
  | ResolveEv.compileUnit _ :: es => invokeArgs es

/-- Concrete compile primitive that always yields a function object. -/
def compileOk : String → String → JVal := fun _ _ => JVal.obj 100

/-- Concrete compile primitive that always yields a syntax error. -/
def compileErr : String → String → JVal := fun _ _ => JVal.err "SyntaxError"

/-- Concrete call primitive that returns undefined. -/
def callOk : JVal → List JVal → JVal := fun _ _ => JVal.undef

/-- Concrete call primitive that raises a script exception. -/
def callErr : JVal → List JVal → JVal := fun _ _ => JVal.err "TypeError"

/-- Observable steps performed by the Compile binding, in order. -/
inductive TraceEv where
  | debuggerStop
  | parse (filename source : String)
deriving DecidableEq, Repr

/-- Shallow embedding of Compile: when the environment carries a
debugger configuration, jerry_debugger_stop is signalled before the
source is handed to WrapEval; the parse result itself comes from the
engine and is abstracted by the wrapEval parameter. The second
component is the ordered trace of the two observable steps. -/
def Compile (debuggerConfigured : Bool) (wrapEval : String → String → JVal)
    (filename source : String) : JVal × List TraceEv :=
  ((wrapEval filename source),
   (if debuggerConfigured then [TraceEv.debuggerStop] else []) ++
     [TraceEv.parse filename source])

/-- Result of uv_fs_stat as consumed by ReadSource and
CompileSnapshot: the kind of filesystem object the path names. A
failed stat (missing path) leaves a zeroed mode, for which S_ISREG
is false, so missing is one more non-regular kind. -/
inductive FileKind where
  | regular
  | directory
  | device
  | missing
deriving DecidableEq, Repr

/-- Model of the S_ISREG test on the mode obtained from stat. -/
def S_ISREG : FileKind → Bool
  | FileKind.regular => true
  | _ => false

/-- Environment for the file-reading bindings: what kind of object
each path names, and the byte content a read of the path yields
(none models a NULL return from the reading helper). -/
structure FileSystem where
  kind : String → FileKind
  data : String → Option String

/-- Result of ReadSource: the returned jerry value and the list of
paths whose content was actually read. -/
structure ReadResult where
  ret : JVal
  reads : List String
deriving DecidableEq, Repr

/-- Shallow embedding of ReadSource: stat the path, fail before any
read when the target is not a regular file, otherwise read the file
content and return it as a string value. -/
def ReadSource (fs : FileSystem) (path : String) : ReadResult :=
  if S_ISREG (fs.kind path) = false then
    { ret := JVal.err "ReadSource error, not a regular file", reads := [] }
  else
    { ret := JVal.str ((fs.data path).getD ""), reads := [path] }

/-- Result of CompileSnapshot: the returned jerry value, the paths
read, and the buffers handed to jerry_exec_snapshot. -/
structure CSResult where
  ret : JVal
  reads : List String
  execCalls : List String
deriving DecidableEq, Repr

/-- Shallow embedding of CompileSnapshot: stat the path and fail
before any read when the target is not a regular file; then read the
file, fail when the buffer is NULL or empty, and otherwise hand the
buffer to the engine snapshot executor, abstracted by the
execSnapshot parameter. -/
def CompileSnapshot (fs : FileSystem) (execSnapshot : String → JVal)
    (path : String) : CSResult :=
  if S_ISREG (fs.kind path) = false then
    { ret := JVal.err "ReadSource error, not a regular file",
      reads := [], execCalls := [] }
  else
    match fs.data path with
    | none =>
      { ret := JVal.err "Could not load the snapshot source.",
        reads := [path], execCalls := [] }
    | some bytes =>
      if bytes.length = 0 then
        { ret := JVal.err "Could not load the snapshot source.",
          reads := [path], execCalls := [] }
      else
        { ret := execSnapshot bytes, reads := [path], execCalls := [bytes] }

/-- What dlopen finds at a path that is loadable: the handle it
yields, whether the object carries the fixed entry symbol
iotjs_module_register, and the dlerror text dlsym would report when
the symbol is absent. -/
structure LoadableObject where
  handle : Nat
  hasEntrySymbol : Bool
  symbolDiag : String
deriving DecidableEq, Repr

/-- Result of DLOpen: the returned jerry value, the diagnostic lines
printed to stderr, the native handles still open on return, and the
exports containers the entry symbol was invoked with. -/
structure DLResult where
  ret : JVal
  stderrLines : List String
  openHandles : List Nat
  initCalls : List JVal
deriving DecidableEq, Repr

/-- Shallow embedding of DLOpen (the Native Plugin Loader). The
loader parameter models the platform dynamic loader: an error with
its dlerror diagnostic when the path cannot be opened, otherwise the
loadable object found there. On open failure the diagnostic is
printed and the number -1 is returned with nothing open. On a missing
entry symbol the diagnostic is printed, dlclose is applied, and -1 is
returned with no handle left open. On success a fresh exports object
(identified by freshId) is created, the entry symbol is invoked with
it, the handle is deliberately left open, and the container is
returned. -/
def DLOpen (loader : String → Except String LoadableObject) (freshId : Nat)
    (location : String) : DLResult :=
  match loader location with
  | Except.error diag =>
    { ret := JVal.num (-1),
      stderrLines := ["dlopen: error(" ++ diag ++ ")"],
      openHandles := [], initCalls := [] }
  | Except.ok o =>
    if o.hasEntrySymbol = false then
      { ret := JVal.num (-1),
        stderrLines := ["dlsym: error(" ++ o.symbolDiag ++ ")"],
        openHandles := [], initCalls := [] }
    else
      { ret := JVal.obj freshId, stderrLines := [],
        openHandles := [o.handle], initCalls := [JVal.obj freshId] }

/-- Assignment of a property on a jerry object modelled as an
association list: an existing key is updated in place, a new key is
appended, matching the insertion-order semantics of object
properties. -/
def jsSetProp (obj : List (String × JVal)) (k : String) (v : JVal) :
    List (String × JVal) :=
  if k ∈ obj.map Prod.fst then
    obj.map (fun p => if p.1 = k then (k, v) else p)
  else
    obj ++ [(k, v)]

/-- Shallow embedding of SetBuiltinModules: starting from a fresh
empty object, set each js_modules name to true in table order, then
each native-static (iotjs_modules) name to true in table order. The
two name lists abstract the two compile-time tables, of which only
the names are consumed here. -/
def SetBuiltinModules (jsNames nativeNames : List String) :
    List (String × JVal) :=
  (jsNames ++ nativeNames).foldl
    (fun o n => jsSetProp o n (JVal.bool true)) []

/-- Object whose keys are the given names in order, all mapped to the
boolean true. -/
def trueObj (ks : List String) : List (String × JVal) :=
  ks.map (fun k => (k, JVal.bool true))

/-- First-occurrence deduplication relative to a set of names already
seen. -/
def dedupFirstAux (seen : List String) : List String → List String
  | [] => []
  | x :: xs =>
    if x ∈ seen then dedupFirstAux seen xs
    else x :: dedupFirstAux (x :: seen) xs

/-- First-occurrence deduplication: keeps the first occurrence of
each name, in order. -/
def dedupFirst (l : List String) : List String := dedupFirstAux [] l

/-- Concrete js_modules table holding one module named fs. -/
def fsTable : List JsModule := [⟨"fs", "exports.x = 1"⟩]

/-- Concrete module record requesting the module fs. -/
def fsRecord : ModuleRecord := ⟨JVal.obj 1, "fs", JVal.obj 2⟩

/-- Concrete native-static table whose fs factory raised an error. -/
def errTbl : List (String × JVal) := [("fs", JVal.err "boom")]

/-- Concrete native-static table with an fs exports object. -/
def natTbl : List (String × JVal) := [("fs", JVal.obj 7)]

/-- Concrete filesystem in which every path is a directory. -/
def dirFS : FileSystem := ⟨fun _ => FileKind.directory, fun _ => none⟩

/-- Concrete filesystem in which every path is an empty regular
file. -/
def emptyFS : FileSystem := ⟨fun _ => FileKind.regular, fun _ => some ""⟩

/-- Concrete snapshot executor producing a function object. -/
def execStub : String → JVal := fun _ => JVal.obj 9

/-- Concrete platform loader that cannot open any path. -/
def loaderFailOpen : String → Except String LoadableObject :=
  fun _ => Except.error "nofile"

/-- Concrete platform loader whose objects lack the entry symbol. -/
def loaderNoSym : String → Except String LoadableObject :=
  fun _ => Except.ok ⟨5, false, "nosym"⟩

/-- Concrete platform loader whose objects carry the entry symbol. -/
def loaderGood : String → Except String LoadableObject :=
  fun _ => Except.ok ⟨5, true, ""⟩

lemma findJsModule_eq_none_of (mods : List JsModule) (name : String)
    (h : ∀ m ∈ mods, m.name ≠ name) : findJsModule mods name = none := by
  apply List.find?_eq_none.mpr
  intro m hm
  simpa using h m hm

lemma iotjs_module_get_eq_undef_of (tbl : List (String × JVal)) (name : String)
    (h : ∀ p ∈ tbl, p.1 ≠ name) : iotjs_module_get tbl name = JVal.undef := by
  have hn : tbl.find? (fun p => p.1 == name) = none := by
    apply List.find?_eq_none.mpr
    intro p hp
    simpa using h p hp
  simp [iotjs_module_get, hn]

lemma map_fst_trueObj (ks : List String) : (trueObj ks).map Prod.fst = ks := by
  simp only [trueObj, List.map_map]
  exact List.map_id ks

lemma dedupFirstAux_congr (ns : List String) :
    ∀ s1 s2 : List String, (∀ x, x ∈ s1 ↔ x ∈ s2) →
      dedupFirstAux s1 ns = dedupFirstAux s2 ns := by
  induction ns with
  | nil => intro s1 s2 _; rfl
  | cons n ns ih =>
    intro s1 s2 h
    simp only [dedupFirstAux]
    by_cases hn : n ∈ s1
    · rw [if_pos hn, if_pos ((h n).mp hn)]
      exact ih s1 s2 h
    · rw [if_neg hn, if_neg (fun c => hn ((h n).mpr c))]
      rw [ih (n :: s1) (n :: s2) (fun x => by simp [List.mem_cons, h x])]

lemma jsSetProp_trueObj_mem (ks : List String) (n : String) (h : n ∈ ks) :
    jsSetProp (trueObj ks) n (JVal.bool true) = trueObj ks := by
  unfold jsSetProp
  rw [map_fst_trueObj, if_pos h]
  unfold trueObj
  rw [List.map_map]
  congr 1
  funext k
  by_cases hk : k = n <;> simp [hk]

lemma jsSetProp_trueObj_new (ks : List String) (n : String) (h : n ∉ ks) :
    jsSetProp (trueObj ks) n (JVal.bool true) = trueObj (ks ++ [n]) := by
  unfold jsSetProp
  rw [map_fst_trueObj, if_neg h]
  simp [trueObj]

lemma foldl_jsSetProp_trueObj (ns : List String) :
    ∀ ks : List String,
      ns.foldl (fun o n => jsSetProp o n (JVal.bool true)) (trueObj ks)
        = trueObj (ks ++ dedupFirstAux ks ns) := by
  induction ns with
  | nil => intro ks; simp [dedupFirstAux]
  | cons n ns ih =>
    intro ks
    rw [List.foldl_cons]
    by_cases h : n ∈ ks
    · rw [jsSetProp_trueObj_mem ks n h, ih ks]
      simp only [dedupFirstAux, if_pos h]
    · rw [jsSetProp_trueObj_new ks n h, ih (ks ++ [n])]
      simp only [dedupFirstAux, if_neg h]
      rw [dedupFirstAux_congr ns (ks ++ [n]) (n :: ks)
        (fun x => by simp [List.mem_cons, List.mem_append, or_comm])]
      simp

lemma mem_dedupFirstAux (ns : List String) :
    ∀ seen x, x ∈ dedupFirstAux seen ns ↔ (x ∈ ns ∧ x ∉ seen) := by
  induction ns with
  | nil => intro seen x; simp [dedupFirstAux]
  | cons n ns ih =>
    intro seen x
    simp only [dedupFirstAux]
    by_cases h : n ∈ seen
    · rw [if_pos h, ih]
      by_cases hxn : x = n
      · subst hxn; simp [h]
      · simp [hxn]
    · rw [if_neg h]
      by_cases hxn : x = n
      · subst hxn; simp [List.mem_cons, ih, h]
      · simp [List.mem_cons, ih, hxn]

lemma nodup_dedupFirstAux (ns : List String) :
    ∀ seen, (dedupFirstAux seen ns).Nodup := by
  induction ns with
  | nil => intro seen; simp [dedupFirstAux]
  | cons n ns ih =>
    intro seen
    simp only [dedupFirstAux]
    by_cases h : n ∈ seen
    · rw [if_pos h]; exact ih seen
    · rw [if_neg h]
      refine List.nodup_cons.mpr ⟨?_, ih (n :: seen)⟩
      intro c
      exact ((mem_dedupFirstAux ns (n :: seen) n).mp c).2
        (List.mem_cons_self n seen)

lemma invokeArgs_CompileModule (js_modules : List JsModule)
    (native_tbl : List (String × JVal)) (compile : String → String → JVal)
    (call : JVal → List JVal → JVal) (jmodule : ModuleRecord) (jrequire : JVal) :
    ∀ a ∈ invokeArgs
        (CompileModule js_modules native_tbl compile call jmodule jrequire).events,
      a = [jmodule.exports, jrequire, jmodule.self,
           iotjs_module_get native_tbl jmodule.id] := by
  intro a ha
  by_cases h1 : hasErrorFlag (iotjs_module_get native_tbl jmodule.id) = true
  · simp [CompileModule, h1, invokeArgs] at ha
  · cases hfind : findJsModule js_modules jmodule.id with
    | none =>
      by_cases h2 : iotjs_module_get native_tbl jmodule.id = JVal.undef <;>
        simp [CompileModule, h1, hfind, h2, invokeArgs] at ha
    | some m =>
      by_cases h3 : hasErrorFlag (compile jmodule.id m.code) = true
      · simp [CompileModule, h1, hfind, h3, invokeArgs] at ha
      · simp [CompileModule, h1, hfind, h3, invokeArgs] at ha
        exact ha

lemma events_head_CompileModule (js_modules : List JsModule)
    (native_tbl : List (String × JVal)) (compile : String → String → JVal)
    (call : JVal → List JVal → JVal) (jmodule : ModuleRecord) (jrequire : JVal) :
    (CompileModule js_modules native_tbl compile call jmodule jrequire).events.head?
      = some (ResolveEv.nativeLookup jmodule.id) := by
  by_cases h1 : hasErrorFlag (iotjs_module_get native_tbl jmodule.id) = true
  · simp [CompileModule, h1]
  · cases hfind : findJsModule js_modules jmodule.id with
    | none =>
      by_cases h2 : iotjs_module_get native_tbl jmodule.id = JVal.undef
      · simp [CompileModule, hasErrorFlag, h1, hfind, h2]
      · rw [Bool.not_eq_true] at h1
        simp [CompileModule, h1, hfind, h2]
    | some m =>
      by_cases h3 : hasErrorFlag (compile jmodule.id m.code) = true <;>
        simp [CompileModule, h1, hfind, h3]

/-- Claim C1, counterexample: resolving the built-in module fs (with
an empty native-static table, a compile primitive yielding a function
object and a call primitive yielding undefined) invokes the compiled
unit with exactly four arguments, not six: the filename and dirname
positions are never supplied, so the claim that all six positional
parameters are populated on every invocation fails on this input. -/
theorem C1_counterexample :
    invokeArgs (CompileModule fsTable [] compileOk callOk fsRecord
        (JVal.obj 3)).events
      = [[JVal.obj 2, JVal.obj 3, JVal.obj 1, JVal.undef]]
    ∧ ((invokeArgs (CompileModule fsTable [] compileOk callOk fsRecord
        (JVal.obj 3)).events).all (fun a => a.length == 6)) = false := by
  constructor
  · rfl
  · rfl

/-- Claim C1 as amended: whenever the Module Resolver invokes a
CompiledUnit, for every module kind it passes exactly the four
positional arguments exports, require, module and native, in that
order; the filename and dirname parameters of the unit are never
passed, uniformly across loading paths. -/
theorem C1_four_argument_invocation (js_modules : List JsModule)
    (native_tbl : List (String × JVal)) (compile : String → String → JVal)
    (call : JVal → List JVal → JVal) (jmodule : ModuleRecord) (jrequire : JVal) :
    ∀ a ∈ invokeArgs
        (CompileModule js_modules native_tbl compile call jmodule jrequire).events,
      a = [jmodule.exports, jrequire, jmodule.self,
           iotjs_module_get native_tbl jmodule.id]
      ∧ a.length = 4 := by
  intro a ha
  have h := invokeArgs_CompileModule js_modules native_tbl compile call
    jmodule jrequire a ha
  exact ⟨h, by rw [h]; rfl⟩

/-- Claim C1 witness: the four-argument invocation shape holds at the
concrete resolution of fs from the built-in table. -/
theorem C1_four_argument_invocation_witness :
    ([JVal.obj 2, JVal.obj 3, JVal.obj 1, JVal.undef]
        = [fsRecord.exports, JVal.obj 3, fsRecord.self,
           iotjs_module_get [] fsRecord.id])
    ∧ ([JVal.obj 2, JVal.obj 3, JVal.obj 1, JVal.undef] : List JVal).length = 4 :=
  C1_four_argument_invocation fsTable [] compileOk callOk fsRecord (JVal.obj 3)
    [JVal.obj 2, JVal.obj 3, JVal.obj 1, JVal.undef] (by decide)

/-- Claim C2, counterexample: the name fs is registered both as a
built-in script module and as a native-static module whose exports
object is non-error and non-undefined, yet resolving fs performs a
compilation and leaves the exports slot untouched, instead of
assigning the native exports directly and returning without
compilation as the claim states. -/
theorem C2_counterexample :
    iotjs_module_get natTbl "fs" = JVal.obj 7
    ∧ hasErrorFlag (iotjs_module_get natTbl "fs") = false
    ∧ ResolveEv.compileUnit "fs"
        ∈ (CompileModule fsTable natTbl compileOk callOk fsRecord
            (JVal.obj 3)).events
    ∧ (CompileModule fsTable natTbl compileOk callOk fsRecord
        (JVal.obj 3)).module.exports = JVal.obj 2 := by
  refine ⟨rfl, rfl, ?_, rfl⟩
  decide

/-- Claim C2 as amended: when a module id names a native-static
module whose value is non-error and non-undefined and no built-in
script module of the same name is registered, the Resolver assigns
the native exports object directly into the exports slot of the
module record and returns undefined without performing any
compilation or invocation; when a built-in script module of the same
name is also registered, the script module takes precedence and is
compiled instead. -/
theorem C2_native_static_direct (js_modules : List JsModule)
    (native_tbl : List (String × JVal)) (compile : String → String → JVal)
    (call : JVal → List JVal → JVal) (jmodule : ModuleRecord) (jrequire : JVal)
    (habs : ∀ m ∈ js_modules, m.name ≠ jmodule.id)
    (herr : hasErrorFlag (iotjs_module_get native_tbl jmodule.id) = false)
    (hdef : iotjs_module_get native_tbl jmodule.id ≠ JVal.undef) :
    CompileModule js_modules native_tbl compile call jmodule jrequire
      = { ret := JVal.undef,
          module := { jmodule with
            exports := iotjs_module_get native_tbl jmodule.id },
          events := [ResolveEv.nativeLookup jmodule.id] } := by
  have hfind := findJsModule_eq_none_of js_modules jmodule.id habs
  simp [CompileModule, herr, hfind, hdef]

/-- Claim C2 witness: with an empty built-in table and fs registered
native-static, resolution assigns the native exports directly. -/
theorem C2_native_static_direct_witness :
    CompileModule [] natTbl compileOk callOk fsRecord (JVal.obj 3)
      = { ret := JVal.undef,
          module := { fsRecord with
            exports := iotjs_module_get natTbl fsRecord.id },
          events := [ResolveEv.nativeLookup fsRecord.id] } :=
  C2_native_static_direct [] natTbl compileOk callOk fsRecord (JVal.obj 3)
    (by simp) (by decide) (by decide)

/-- Claim C4: for every module id absent from both the built-in
script module table and the native-static table, CompileModule fails
with the Unknown native module error, performs no compilation or
invocation, and leaves the module record (in particular its exports
slot) unchanged. -/
theorem C4_unknown_module (js_modules : List JsModule)
    (native_tbl : List (String × JVal)) (compile : String → String → JVal)
    (call : JVal → List JVal → JVal) (jmodule : ModuleRecord) (jrequire : JVal)
    (hjs : ∀ m ∈ js_modules, m.name ≠ jmodule.id)
    (hnat : ∀ p ∈ native_tbl, p.1 ≠ jmodule.id) :
    CompileModule js_modules native_tbl compile call jmodule jrequire
      = { ret := JVal.err "Unknown native module", module := jmodule,
          events := [ResolveEv.nativeLookup jmodule.id] } := by
  have hfind := findJsModule_eq_none_of js_modules jmodule.id hjs
  have hget := iotjs_module_get_eq_undef_of native_tbl jmodule.id hnat
  simp [CompileModule, hfind, hget, hasErrorFlag]

/-- Claim C4 witness: resolving fs against empty tables yields the
Unknown native module error and an unchanged module record. -/
theorem C4_unknown_module_witness :
    CompileModule [] [] compileOk callOk fsRecord (JVal.obj 3)
      = { ret := JVal.err "Unknown native module", module := fsRecord,
          events := [ResolveEv.nativeLookup fsRecord.id] } :=
  C4_unknown_module [] [] compileOk callOk fsRecord (JVal.obj 3)
    (by simp) (by simp)

/-- Claim C7: every error arising during resolution is returned to
the caller unmodified: an error-flagged native-static lookup value is
itself the return value; a failed compilation of a built-in script
module returns the compile error itself; and the value produced by
invoking the compiled unit, including an invocation-time script
exception, is returned as produced, with no wrapping, retrying or
translation. -/
theorem C7_error_propagation (js_modules : List JsModule)
    (native_tbl : List (String × JVal)) (compile : String → String → JVal)
    (call : JVal → List JVal → JVal) (jmodule : ModuleRecord) (jrequire : JVal) :
    (hasErrorFlag (iotjs_module_get native_tbl jmodule.id) = true →
      (CompileModule js_modules native_tbl compile call jmodule jrequire).ret
        = iotjs_module_get native_tbl jmodule.id)
    ∧ (∀ m, findJsModule js_modules jmodule.id = some m →
        hasErrorFlag (iotjs_module_get native_tbl jmodule.id) = false →
        hasErrorFlag (compile jmodule.id m.code) = true →
        (CompileModule js_modules native_tbl compile call jmodule jrequire).ret
          = compile jmodule.id m.code)
    ∧ (∀ m, findJsModule js_modules jmodule.id = some m →
        hasErrorFlag (iotjs_module_get native_tbl jmodule.id) = false →
        hasErrorFlag (compile jmodule.id m.code) = false →
        (CompileModule js_modules native_tbl compile call jmodule jrequire).ret
          = call (compile jmodule.id m.code)
              [jmodule.exports, jrequire, jmodule.self,
               iotjs_module_get native_tbl jmodule.id]) := by
  refine ⟨?_, ?_, ?_⟩
  · intro h
    simp [CompileModule, h]
  · intro m hm h1 h2
    simp [CompileModule, h1, hm, h2]
  · intro m hm h1 h2
    simp [CompileModule, h1, hm, h2]

/-- Claim C7 witness: the three propagation cases at concrete inputs:
a native lookup error, a compile error and an invocation-time script
exception each come back exactly as raised. -/
theorem C7_error_propagation_witness :
    ((CompileModule fsTable errTbl compileOk callOk fsRecord
        (JVal.obj 3)).ret = JVal.err "boom")
    ∧ ((CompileModule fsTable [] compileErr callOk fsRecord
        (JVal.obj 3)).ret = JVal.err "SyntaxError")
    ∧ ((CompileModule fsTable [] compileOk callErr fsRecord
        (JVal.obj 3)).ret = JVal.err "TypeError") :=
  ⟨((C7_error_propagation fsTable errTbl compileOk callOk fsRecord
      (JVal.obj 3)).1 (by decide)).trans (by decide),
   ((C7_error_propagation fsTable [] compileErr callOk fsRecord
      (JVal.obj 3)).2.1 ⟨"fs", "exports.x = 1"⟩ (by decide) (by decide)
      (by decide)).trans (by decide),
   ((C7_error_propagation fsTable [] compileOk callErr fsRecord
      (JVal.obj 3)).2.2 ⟨"fs", "exports.x = 1"⟩ (by decide) (by decide)
      (by decide)).trans (by decide)⟩

/-- Claim C10: for every module id the native-static table is queried
before any compiled unit is produced (the native lookup is the first
observable step of every resolution); an error-flagged lookup value
is returned immediately with no compilation or invocation, even when
the id also names a built-in script module; and otherwise the
retrieved native value is passed as the fourth argument of every
invocation of the compiled unit. -/
theorem C10_native_lookup_first (js_modules : List JsModule)
    (native_tbl : List (String × JVal)) (compile : String → String → JVal)
    (call : JVal → List JVal → JVal) (jmodule : ModuleRecord) (jrequire : JVal) :
    (CompileModule js_modules native_tbl compile call jmodule jrequire).events.head?
      = some (ResolveEv.nativeLookup jmodule.id)
    ∧ (hasErrorFlag (iotjs_module_get native_tbl jmodule.id) = true →
        CompileModule js_modules native_tbl compile call jmodule jrequire
          = { ret := iotjs_module_get native_tbl jmodule.id, module := jmodule,
              events := [ResolveEv.nativeLookup jmodule.id] })
    ∧ (∀ a ∈ invokeArgs
          (CompileModule js_modules native_tbl compile call jmodule jrequire).events,
        a[3]? = some (iotjs_module_get native_tbl jmodule.id)) := by
  refine ⟨events_head_CompileModule js_modules native_tbl compile call
    jmodule jrequire, ?_, ?_⟩
  · intro h
    simp [CompileModule, h]
  · intro a ha
    rw [invokeArgs_CompileModule js_modules native_tbl compile call
      jmodule jrequire a ha]
    rfl

/-- Claim C10 witness: at concrete inputs, an error from the
native-static table preempts the built-in script module fs, and a
successful invocation carries the native value in position four. -/
theorem C10_native_lookup_first_witness :
    (CompileModule fsTable errTbl compileOk callOk fsRecord (JVal.obj 3)
      = { ret := iotjs_module_get errTbl fsRecord.id, module := fsRecord,
          events := [ResolveEv.nativeLookup fsRecord.id] })
    ∧ ([JVal.obj 2, JVal.obj 3, JVal.obj 1, JVal.undef] : List JVal)[3]?
        = some (iotjs_module_get [] fsRecord.id) :=
  ⟨(C10_native_lookup_first fsTable errTbl compileOk callOk fsRecord
      (JVal.obj 3)).2.1 (by decide),
   (C10_native_lookup_first fsTable [] compileOk callOk fsRecord
      (JVal.obj 3)).2.2
     [JVal.obj 2, JVal.obj 3, JVal.obj 1, JVal.undef] (by decide)⟩

/-- Claim C3: DLOpen on a path the platform loader cannot open fails
with the open-failure outcome carrying the loader diagnostic (number
-1 returned, dlopen diagnostic printed, nothing invoked); on a
loadable object lacking the entry symbol it fails with the
symbol-missing outcome and closes the handle, so no open handle
remains; and on success it invokes the entry symbol with a fresh
exports container, leaves the handle open, and returns that
container. -/
theorem C3_plugin_loader (loader : String → Except String LoadableObject)
    (freshId : Nat) (location : String) :
    (∀ diag, loader location = Except.error diag →
      DLOpen loader freshId location
        = { ret := JVal.num (-1),
            stderrLines := ["dlopen: error(" ++ diag ++ ")"],
            openHandles := [], initCalls := [] })
    ∧ (∀ o, loader location = Except.ok o → o.hasEntrySymbol = false →
      DLOpen loader freshId location
        = { ret := JVal.num (-1),
            stderrLines := ["dlsym: error(" ++ o.symbolDiag ++ ")"],
            openHandles := [], initCalls := [] })
    ∧ (∀ o, loader location = Except.ok o → o.hasEntrySymbol = true →
      DLOpen loader freshId location
        = { ret := JVal.obj freshId, stderrLines := [],
            openHandles := [o.handle], initCalls := [JVal.obj freshId] }) := by
  refine ⟨?_, ?_, ?_⟩
  · intro diag h
    simp [DLOpen, h]
  · intro o ho hs
    simp [DLOpen, ho, hs]
  · intro o ho hs
    simp [DLOpen, ho, hs]

/-- Claim C3 witness: the three loader outcomes at concrete inputs: a
path that cannot be opened, an object without the entry symbol, and
an object exposing it. -/
theorem C3_plugin_loader_witness :
    DLOpen loaderFailOpen 11 "./missing.so"
      = { ret := JVal.num (-1), stderrLines := ["dlopen: error(nofile)"],
          openHandles := [], initCalls := [] }
    ∧ DLOpen loaderNoSym 11 "./nosym.so"
      = { ret := JVal.num (-1), stderrLines := ["dlsym: error(nosym)"],
          openHandles := [], initCalls := [] }
    ∧ DLOpen loaderGood 11 "./valid.so"
      = { ret := JVal.obj 11, stderrLines := [],
          openHandles := [5], initCalls := [JVal.obj 11] } :=
  ⟨(C3_plugin_loader loaderFailOpen 11 "./missing.so").1 "nofile" rfl,
   (C3_plugin_loader loaderNoSym 11 "./nosym.so").2.1 ⟨5, false, "nosym"⟩ rfl rfl,
   (C3_plugin_loader loaderGood 11 "./valid.so").2.2 ⟨5, true, ""⟩ rfl rfl⟩

/-- Claim C5: for every path whose stat target is not a regular file
(directory, device or missing), both ReadSource and the stat check of
CompileSnapshot fail with the not-a-regular-file error and read no
file content at all. -/
theorem C5_not_regular_file (fs : FileSystem) (execSnapshot : String → JVal)
    (path : String) (h : S_ISREG (fs.kind path) = false) :
    ReadSource fs path
      = { ret := JVal.err "ReadSource error, not a regular file", reads := [] }
    ∧ CompileSnapshot fs execSnapshot path
      = { ret := JVal.err "ReadSource error, not a regular file",
          reads := [], execCalls := [] } := by
  constructor <;> simp [ReadSource, CompileSnapshot, h]

/-- Claim C5 witness: on a filesystem where every path is a
directory, both bindings fail before reading. -/
theorem C5_not_regular_file_witness :
    ReadSource dirFS "app.js"
      = { ret := JVal.err "ReadSource error, not a regular file", reads := [] }
    ∧ CompileSnapshot dirFS execStub "app.js"
      = { ret := JVal.err "ReadSource error, not a regular file",
          reads := [], execCalls := [] } :=
  C5_not_regular_file dirFS execStub "app.js" rfl

/-- Claim C6: CompileSnapshot on a regular file whose read yields a
NULL or empty byte buffer always fails with the snapshot-invalid
error and never hands a buffer to the engine snapshot executor, so no
usable compiled unit is produced for empty input. -/
theorem C6_empty_snapshot (fs : FileSystem) (execSnapshot : String → JVal)
    (path : String) (hreg : S_ISREG (fs.kind path) = true)
    (hempty : fs.data path = none ∨ fs.data path = some "") :
    (CompileSnapshot fs execSnapshot path).ret
        = JVal.err "Could not load the snapshot source."
    ∧ (CompileSnapshot fs execSnapshot path).execCalls = [] := by
  rcases hempty with h | h <;> constructor <;>
    simp [CompileSnapshot, hreg, h]

/-- Claim C6 witness: a zero-length snapshot file yields the
snapshot-invalid error and no execution attempt. -/
theorem C6_empty_snapshot_witness :
    (CompileSnapshot emptyFS execStub "snap.bin").ret
        = JVal.err "Could not load the snapshot source."
    ∧ (CompileSnapshot emptyFS execStub "snap.bin").execCalls = [] :=
  C6_empty_snapshot emptyFS execStub "snap.bin" rfl (Or.inr rfl)

/-- Claim C8: when a debugger session is configured, Compile signals
jerry_debugger_stop exactly once, before the source is parsed; when
no debugger is configured, no stop signal is sent; and in either case
the parse result of the engine is returned. -/
theorem C8_debugger_stop_before_parse (wrapEval : String → String → JVal)
    (filename source : String) :
    (Compile true wrapEval filename source).2
        = [TraceEv.debuggerStop, TraceEv.parse filename source]
    ∧ (Compile false wrapEval filename source).2
        = [TraceEv.parse filename source]
    ∧ (Compile true wrapEval filename source).1 = wrapEval filename source
    ∧ (Compile false wrapEval filename source).1 = wrapEval filename source :=
  ⟨rfl, rfl, rfl, rfl⟩

/-- Claim C9: the builtin_modules listing produced by
SetBuiltinModules maps exactly the names registered in the built-in
script table and the native-static table to the boolean true, in
registration order with first occurrences kept, and reports no name
twice. -/
theorem C9_builtin_modules_listing (jsNames nativeNames : List String) :
    SetBuiltinModules jsNames nativeNames
        = trueObj (dedupFirst (jsNames ++ nativeNames))
    ∧ ((SetBuiltinModules jsNames nativeNames).map Prod.fst).Nodup
    ∧ (∀ n, n ∈ (SetBuiltinModules jsNames nativeNames).map Prod.fst
          ↔ n ∈ jsNames ++ nativeNames) := by
  have h : SetBuiltinModules jsNames nativeNames
      = trueObj (dedupFirst (jsNames ++ nativeNames)) := by
    have hf := foldl_jsSetProp_trueObj (jsNames ++ nativeNames) []
    simpa [SetBuiltinModules, trueObj, dedupFirst] using hf
  refine ⟨h, ?_, ?_⟩
  · rw [h, map_fst_trueObj]
    exact nodup_dedupFirstAux _ []
  · intro n
    rw [h, map_fst_trueObj]
    unfold dedupFirst
    rw [mem_dedupFirstAux]
    simp

/-- Claim C9 witness: the listing at concrete tables sharing the name
fs holds that name once, in first-registration position. -/
theorem C9_builtin_modules_listing_witness :
    SetBuiltinModules ["fs", "net"] ["tcp", "fs"]
      = trueObj (dedupFirst (["fs", "net"] ++ ["tcp", "fs"])) :=
  (C9_builtin_modules_listing ["fs", "net"] ["tcp", "fs"]).1
